import Mathlib

/-!
Shallow embedding of `src/stream.py` (the log-stream tail-and-ship pipeline).

File contents are modelled as `List Char` (bytes of a text file); a file
offset is a `Nat`; network and lifecycle effects are recorded as explicit
event traces; exceptions are modelled with `Except`.
-/

namespace LogStreamSpec

/-- Python `str.isspace` characters relevant to `str.strip()`. -/
def isSpace (c : Char) : Bool :=
  c = ' ' || c = '\t' || c = '\n' || c = '\r' || c = '\x0b' || c = '\x0c'

/-- Python `line.strip()`: remove leading and trailing whitespace. -/
def strip (cs : List Char) : List Char :=
  ((cs.dropWhile isSpace).reverse.dropWhile isSpace).reverse

/-- Python `f.readlines()` applied to the remaining contents `cs`: the list of
lines, each keeping its terminating newline; a final unterminated line is
returned as-is; an empty remainder yields no lines. -/
def readlines : List Char → List (List Char)
  | [] => []
  | c :: rest =>
    if c = '\n' then ['\n'] :: readlines rest
    else
      match readlines rest with
      | [] => [[c]]
      | l :: ls => (c :: l) :: ls

/-- One iteration of the loop body in `LogFileMonitor.on_modified`
(`line = line.strip(); if line: self._buffer.append(line)`). -/
def pushLine (b : List (List Char)) (line : List Char) : List (List Char) :=
  let line := strip line
  if line.isEmpty then b else b ++ [line]

/-- The non-empty stripped lines extracted from raw bytes `cs` — the lines
`on_modified` appends for newly read bytes `cs`. -/
def extractLines (cs : List Char) : List (List Char) :=
  ((readlines cs).map strip).filter (fun l => !l.isEmpty)

/-- State of `LogFileMonitor`: the watched path, the remembered byte offset
(`_last_position`) and the pending line buffer (`_buffer`). -/
structure LogFileMonitor where
  log_file : String
  last_position : Nat
  buffer : List (List Char)
deriving DecidableEq, Repr

/-- `LogFileMonitor.on_modified(event)`, given the event's `src_path` and the
current file contents: if the path matches, seek to `_last_position`, read
the remaining bytes (`readlines`), set `_last_position = f.tell()` (the
end-of-file position, or the seek position if it was already past EOF), and
append each non-empty stripped line to the buffer in order. -/
def LogFileMonitor.on_modified (m : LogFileMonitor) (src_path : String)
    (file : List Char) : LogFileMonitor :=
  if src_path = m.log_file then
    let new_lines := readlines (file.drop m.last_position)
    { m with
      last_position := max m.last_position file.length,
      buffer := new_lines.foldl pushLine m.buffer }
  else m

/-- `LogFileMonitor.get_buffer()`: return a copy of the buffer and clear it. -/
def LogFileMonitor.get_buffer (m : LogFileMonitor) :
    List (List Char) × LogFileMonitor :=
  (m.buffer, { m with buffer := [] })

/-- `self._buffer.append(line)` — a single detector-side append. -/
def LogFileMonitor.appendLine (m : LogFileMonitor) (line : List Char) :
    LogFileMonitor :=
  { m with buffer := m.buffer ++ [line] }

/-- Detector-side append of several lines in order. -/
def LogFileMonitor.appendLines (m : LogFileMonitor) (ls : List (List Char)) :
    LogFileMonitor :=
  ls.foldl LogFileMonitor.appendLine m

lemma foldl_pushLine (ls : List (List Char)) (b : List (List Char)) :
    ls.foldl pushLine b = b ++ (ls.map strip).filter (fun l => !l.isEmpty) := by
  induction ls generalizing b with
  | nil => simp
  | cons x xs ih =>
    simp only [List.foldl_cons, List.map_cons, List.filter_cons, ih, pushLine]
    by_cases h : (strip x).isEmpty
    · simp [h]
    · simp [h]

lemma appendLines_eq (m : LogFileMonitor) (ls : List (List Char)) :
    m.appendLines ls = { m with buffer := m.buffer ++ ls } := by
  induction ls generalizing m with
  | nil => simp [LogFileMonitor.appendLines]
  | cons x xs ih =>
    simpa [LogFileMonitor.appendLines, LogFileMonitor.appendLine] using
      ih { m with buffer := m.buffer ++ [x] }

/-- C1: for a modification event whose path equals the watched file,
`on_modified` appends exactly the non-empty stripped lines of the newly
appended bytes (those past the remembered offset) in file order, and sets the
offset to the end-of-file position; with zero new bytes it appends nothing and
leaves the offset unchanged; and a second event after further appends reads
only the bytes past the first event's offset, so no line is ever appended by
two invocations. -/
theorem on_modified_spec (m : LogFileMonitor) (p : String) (file : List Char)
    (hp : p = m.log_file) (hpos : m.last_position ≤ file.length) :
    (m.on_modified p file).buffer
        = m.buffer ++ extractLines (file.drop m.last_position) ∧
    (m.on_modified p file).last_position = file.length ∧
    (file.length = m.last_position →
      (m.on_modified p file).buffer = m.buffer ∧
      (m.on_modified p file).last_position = m.last_position) ∧
    (∀ g, ((m.on_modified p file).on_modified p (file ++ g)).buffer
        = m.buffer ++ extractLines (file.drop m.last_position)
            ++ extractLines g) := by
  subst hp
  have hmax : max m.last_position file.length = file.length :=
    Nat.max_eq_right hpos
  refine ⟨?_, ?_, ?_, ?_⟩
  · simp [LogFileMonitor.on_modified, foldl_pushLine, extractLines]
  · simp [LogFileMonitor.on_modified, hmax]
  · intro h0
    refine ⟨?_, ?_⟩
    · simp [LogFileMonitor.on_modified, foldl_pushLine, extractLines, ← h0,
        List.drop_length, readlines]
    · simp [LogFileMonitor.on_modified, hmax, h0]
  · intro g
    simp [LogFileMonitor.on_modified, hmax, foldl_pushLine, extractLines,
      List.drop_left, List.append_assoc]

/-- Witness for C1: concrete two-event scenario writing "a\n" then "b\n". -/
theorem on_modified_spec_witness :
    (LogFileMonitor.on_modified ⟨".log", 0, []⟩ ".log" ['a', '\n']).buffer
        = [] ++ extractLines (List.drop 0 ['a', '\n']) ∧
    ((LogFileMonitor.on_modified ⟨".log", 0, []⟩ ".log"
        ['a', '\n']).on_modified ".log" (['a', '\n'] ++ ['b', '\n'])).buffer
        = [] ++ extractLines (List.drop 0 ['a', '\n'])
            ++ extractLines ['b', '\n'] := by
  have h := on_modified_spec ⟨".log", 0, []⟩ ".log" ['a', '\n'] rfl (by decide)
  exact ⟨h.1, h.2.2.2 ['b', '\n']⟩

/-- C2: `get_buffer` returns all held lines in append order and leaves the
buffer empty; after a drain, appending the lines `ls` and draining again
yields exactly `ls`, so no line is returned by two drains. -/
theorem get_buffer_drain (m : LogFileMonitor) (ls : List (List Char)) :
    m.get_buffer.1 = m.buffer ∧
    m.get_buffer.2.buffer = [] ∧
    (m.get_buffer.2.appendLines ls).get_buffer.1 = ls ∧
    (m.get_buffer.2.appendLines ls).get_buffer.2.buffer = [] := by
  refine ⟨rfl, rfl, ?_, rfl⟩
  simp [LogFileMonitor.get_buffer, appendLines_eq]

/-- Errors raised by the embedded code: `FileNotFoundError` from `start()`
(the spec's FileAccessError) and any network failure from `httpx.request`
(the spec's TransmissionError). -/
inductive StreamError
  | fileNotFound
  | transmissionError
deriving DecidableEq

/-- Network calls performed against the remote API: the `clear` POST made by
`clear_buffer` and the batch POST made by `send_logs`. -/
inductive NetEvent
  | clearCall
  | batchCall (logs : List (List Char))
deriving DecidableEq

/-- The mutable class state of `LogStream`: `_handler`, `_observer`,
`_thread` (handles modelled as `Option Unit`) and `_is_running`. -/
structure StreamState where
  handler : Option LogFileMonitor
  observer : Option Unit
  thread : Option Unit
  is_running : Bool
deriving DecidableEq

/-- The never-started state: all handles `None`, `_is_running = False`. -/
def neverStarted : StreamState :=
  { handler := none, observer := none, thread := none, is_running := false }

/-- A state mid-session: a handler with a consumed offset and a pending line,
observer and thread handles present, `_is_running = True`. -/
def runningExample : StreamState :=
  { handler := some ⟨".log", 5, [['a']]⟩, observer := some (),
    thread := some (), is_running := true }

/-- `LogStream.send_logs(logs)`: with an empty list it returns `{}` at once,
making no network call; otherwise it POSTs the batch (`sendOk` tells whether
the request succeeds or raises). -/
def send_logs (logs : List (List Char)) (sendOk : Bool) :
    Except StreamError Unit × List NetEvent :=
  if logs.isEmpty then (Except.ok (), [])
  else ((if sendOk then Except.ok ()
         else Except.error StreamError.transmissionError),
        [NetEvent.batchCall logs])

/-- `LogStream.clear_buffer()`: POSTs the clear call; `clearOk` tells whether
the request succeeds or raises. -/
def clear_buffer (clearOk : Bool) : Except StreamError Unit × List NetEvent :=
  ((if clearOk then Except.ok ()
    else Except.error StreamError.transmissionError),
   [NetEvent.clearCall])

/-- `LogStream.start()` given whether the log file exists and whether the
clear request succeeds: missing file raises `FileNotFoundError` immediately
(no clear call, state untouched); a raising `clear_buffer` propagates with
the state untouched; otherwise a fresh handler, observer and thread are
installed and `_is_running` is set. -/
def start (s : StreamState) (log_file : String) (fileExists clearOk : Bool) :
    Except StreamError Unit × StreamState × List NetEvent :=
  if !fileExists then (Except.error StreamError.fileNotFound, s, [])
  else
    match clear_buffer clearOk with
    | (Except.error e, evs) => (Except.error e, s, evs)
    | (Except.ok _, evs) =>
      (Except.ok (),
       { handler := some ⟨log_file, 0, []⟩, observer := some (),
         thread := some (), is_running := true }, evs)

/-- `LogStream.stop()`: set `_is_running = False`; if a thread handle is
present, join and release it; if an observer handle is present, stop and
join it and release both the observer and the handler. -/
def stop (s : StreamState) : StreamState :=
  let s1 := { s with is_running := false }
  let s2 := match s1.thread with
    | some _ => { s1 with thread := none }
    | none => s1
  match s2.observer with
  | some _ => { s2 with observer := none, handler := none }
  | none => s2

/-- One iteration of the loop in `LogStream._monitor_thread`: nothing happens
unless `_is_running`; with a handler present its buffer is drained and, when
non-empty, passed to `send_logs` inside `try/except` — the exception is
swallowed (only the network trace is kept) and the loop continues. -/
def monitor_tick (s : StreamState) (sendOk : Bool) :
    StreamState × List NetEvent :=
  if s.is_running then
    match s.handler with
    | none => (s, [])
    | some h =>
      let drained := h.get_buffer
      let s' := { s with handler := some drained.2 }
      if drained.1.isEmpty then (s', [])
      else (s', (send_logs drained.1 sendOk).2)
  else (s, [])

/-- Lines arriving from the detector between ticks: appended to the
handler's buffer (no-op when no handler is installed). -/
def detectorAppend (s : StreamState) (ls : List (List Char)) : StreamState :=
  match s.handler with
  | none => s
  | some h => { s with handler := some (h.appendLines ls) }

/-- Calls observed by the `LogStream.__call__` wrapper: `cls.start()`, the
wrapped function, `cls.stop()`. -/
inductive LifeEv
  | lifeStart
  | lifeWork
  | lifeStop
deriving DecidableEq

/-- The `wrapper` closure built by the `LogStream.__call__` decorator:
`cls.start()` (outside the `try`, so its exception propagates and nothing
else runs); then the wrapped function inside `try`, with `cls.stop()` in the
`finally` on both the return path and the raise path; the function's own
result or exception reaches the caller unchanged. -/
def wrapper (s : StreamState) (log_file : String) (fileExists clearOk : Bool)
    (func : Nat → Except String Nat) (a : Nat) :
    Except (StreamError ⊕ String) Nat × StreamState × List LifeEv :=
  match start s log_file fileExists clearOk with
  | (Except.error e, s1, _) => (Except.error (Sum.inl e), s1, [LifeEv.lifeStart])
  | (Except.ok _, s1, _) =>
    match func a with
    | Except.ok b =>
      (Except.ok b, stop s1, [LifeEv.lifeStart, LifeEv.lifeWork, LifeEv.lifeStop])
    | Except.error e =>
      (Except.error (Sum.inr e), stop s1,
       [LifeEv.lifeStart, LifeEv.lifeWork, LifeEv.lifeStop])

/-- C3: when the configured log file does not exist, start() raises
`FileNotFoundError` (the spec's FileAccessError) with no state change — the
whole state, in particular the running flag and the absent handles, is
returned untouched — and no network clear call is made (empty trace). -/
theorem start_missing_file (s : StreamState) (lf : String) (clearOk : Bool) :
    start s lf false clearOk
      = (Except.error StreamError.fileNotFound, s, []) := rfl

/-- Counterexample to C4 as stated: at a concrete never-started state, a
network failure of the clear call made by start() is not swallowed — start()
propagates it to its caller as an error. -/
theorem clear_failure_not_swallowed_cex :
    (start neverStarted ".log" true false).1
      = Except.error StreamError.transmissionError := rfl

/-- C4 amended: a failure clearing the remote backlog (the clear call is made
only by start(), outside any handler) propagates to start()'s caller, with
the session state unchanged; the trace records only the attempted clear
call. Only batch-send failures inside dispatcher ticks are swallowed. -/
theorem clear_failure_propagates (s : StreamState) (lf : String) :
    (start s lf true false).1 = Except.error StreamError.transmissionError ∧
    (start s lf true false).2.1 = s ∧
    (start s lf true false).2.2 = [NetEvent.clearCall] :=
  ⟨rfl, rfl, rfl⟩

/-- C5: a dispatcher tick whose send raises catches the failure, drops the
batch (buffer drained, nothing re-buffered), records only the attempted batch
call, and stays running; lines buffered by the detector afterwards are
drained and sent (attempted) by a subsequent tick. -/
theorem tick_send_failure (s : StreamState) (h : LogFileMonitor)
    (hr : s.is_running = true) (hh : s.handler = some h)
    (hb : h.buffer.isEmpty = false) :
    (monitor_tick s false).1.handler = some { h with buffer := [] } ∧
    (monitor_tick s false).1.is_running = true ∧
    (monitor_tick s false).2 = [NetEvent.batchCall h.buffer] ∧
    (∀ (ls : List (List Char)) (ok : Bool), ls.isEmpty = false →
      (monitor_tick (detectorAppend (monitor_tick s false).1 ls) ok).2
        = [NetEvent.batchCall ls]) := by
  have hdr : monitor_tick s false
      = ({ s with handler := some { h with buffer := [] } },
         [NetEvent.batchCall h.buffer]) := by
    simp [monitor_tick, hr, hh, LogFileMonitor.get_buffer, send_logs, hb]
  refine ⟨by simp [hdr], by simp [hdr, hr], by simp [hdr], ?_⟩
  intro ls ok hls
  rw [hdr]
  simp [detectorAppend, appendLines_eq, monitor_tick, hr,
    LogFileMonitor.get_buffer, send_logs, hls]

/-- Witness for C5: a concrete failing tick followed by a successful one. -/
theorem tick_send_failure_witness :
    (runningExample.is_running = true ∧
      runningExample.handler = some ⟨".log", 5, [['a']]⟩ ∧
      ([['a']] : List (List Char)).isEmpty = false ∧
      ([['b']] : List (List Char)).isEmpty = false) ∧
    (monitor_tick runningExample false).1.handler
        = some { (⟨".log", 5, [['a']]⟩ : LogFileMonitor) with buffer := [] } ∧
    (monitor_tick runningExample false).1.is_running = true ∧
    (monitor_tick runningExample false).2 = [NetEvent.batchCall [['a']]] ∧
    (monitor_tick (detectorAppend (monitor_tick runningExample false).1
        [['b']]) true).2 = [NetEvent.batchCall [['b']]] := by
  have h := tick_send_failure runningExample ⟨".log", 5, [['a']]⟩ rfl rfl rfl
  exact ⟨⟨rfl, rfl, rfl, rfl⟩, h.1, h.2.1, h.2.2.1, h.2.2.2 [['b']] true rfl⟩

/-- C6: the decorator's wrapper calls start() before the work, runs the work,
and calls stop() on both of the work's exit paths (normal return and raised
exception); the caller observes the work's own return value or its own
exception unchanged, and the session is not left Running. -/
theorem wrapper_spec (s : StreamState) (lf : String)
    (func : Nat → Except String Nat) (a : Nat) :
    (wrapper s lf true true func a).2.2
        = [LifeEv.lifeStart, LifeEv.lifeWork, LifeEv.lifeStop] ∧
    (wrapper s lf true true func a).1
      = (match func a with
         | Except.ok b => Except.ok b
         | Except.error e => Except.error (Sum.inr e)) ∧
    (wrapper s lf true true func a).2.1.is_running = false := by
  cases hfa : func a <;>
    simp [wrapper, start, clear_buffer, stop, hfa]

/-- Counterexample to C7 as stated: calling start() on a Running state is
neither rejected with an error nor a no-op — it returns success, makes
another network clear call, and replaces the session state (the handler is
reset, losing its offset and pending line). -/
theorem start_while_running_cex :
    (start runningExample ".log" true true).1 = Except.ok () ∧
    (start runningExample ".log" true true).2.1 ≠ runningExample ∧
    (start runningExample ".log" true true).2.2 = [NetEvent.clearCall] := by
  refine ⟨rfl, ?_, rfl⟩
  decide

/-- C7 amended: start() has no running-state guard: invoked while Running it
re-runs the full start sequence — another clear call, a fresh handler with
offset 0 and empty buffer, fresh observer and thread handles — and reports
success (the previous dispatcher thread is simply abandoned, still running). -/
theorem start_while_running_unguarded (s : StreamState) (lf : String)
    (hr : s.is_running = true) :
    start s lf true true
      = (Except.ok (), ⟨some ⟨lf, 0, []⟩, some (), some (), true⟩,
         [NetEvent.clearCall]) := rfl

/-- Witness for the amended C7 at a concrete Running state. -/
theorem start_while_running_unguarded_witness :
    runningExample.is_running = true ∧
    start runningExample ".log" true true
      = (Except.ok (), ⟨some ⟨".log", 0, []⟩, some (), some (), true⟩,
         [NetEvent.clearCall]) :=
  ⟨rfl, start_while_running_unguarded runningExample ".log" rfl⟩

/-- C8: stop() on the never-started state (all handles None) is a no-op and
does not crash; and for every state in which the observer handle can only be
absent when the handler is too (true of every state start/stop produce),
stop() leaves the running flag false and all three handles released. -/
theorem stop_spec (s : StreamState)
    (hinv : s.observer = none → s.handler = none) :
    stop neverStarted = neverStarted ∧
    (stop s).is_running = false ∧
    (stop s).thread = none ∧
    (stop s).observer = none ∧
    (stop s).handler = none := by
  refine ⟨rfl, ?_, ?_, ?_, ?_⟩ <;>
    cases ho : s.observer <;> cases ht : s.thread <;>
      simp_all [stop]

/-- Witness for C8 at a concrete Running state. -/
theorem stop_spec_witness :
    (runningExample.observer = none → runningExample.handler = none) ∧
    (stop runningExample).is_running = false ∧
    (stop runningExample).thread = none ∧
    (stop runningExample).observer = none ∧
    (stop runningExample).handler = none := by
  have hinv : runningExample.observer = none → runningExample.handler = none :=
    by decide
  have h := stop_spec runningExample hinv
  exact ⟨hinv, h.2.1, h.2.2.1, h.2.2.2.1, h.2.2.2.2⟩

/-- C9: a tick whose drain yields the empty sequence performs no network
send, and so does the following tick if nothing was written in between;
send_logs on the empty list returns at once without a network call. -/
theorem tick_empty_no_send (s : StreamState) (h : LogFileMonitor)
    (ok ok2 : Bool) (hh : s.handler = some h) (hb : h.buffer = []) :
    (monitor_tick s ok).2 = [] ∧
    (monitor_tick (monitor_tick s ok).1 ok2).2 = [] ∧
    send_logs [] ok = (Except.ok (), []) := by
  cases hrun : s.is_running <;>
    simp [monitor_tick, hrun, hh, hb, LogFileMonitor.get_buffer, send_logs]

/-- Witness for C9: two ticks over an installed handler with an empty
buffer. -/
theorem tick_empty_no_send_witness :
    ((⟨some ⟨".log", 0, []⟩, some (), some (), true⟩ : StreamState).handler
        = some ⟨".log", 0, []⟩ ∧
      (⟨".log", 0, []⟩ : LogFileMonitor).buffer = []) ∧
    (monitor_tick ⟨some ⟨".log", 0, []⟩, some (), some (), true⟩ true).2 = [] ∧
    (monitor_tick (monitor_tick
        ⟨some ⟨".log", 0, []⟩, some (), some (), true⟩ true).1 false).2 = [] ∧
    send_logs [] true = (Except.ok (), []) := by
  have h := tick_empty_no_send
    ⟨some ⟨".log", 0, []⟩, some (), some (), true⟩ ⟨".log", 0, []⟩
    true false rfl rfl
  exact ⟨⟨rfl, rfl⟩, h.1, h.2.1, h.2.2⟩

/-- C10: when the clear call raises inside start() (after the existence
check passed), start() propagates the error and, from the never-started
state, nothing changes: the running flag is still false and no handler,
observer, or thread has been created; the trace shows only the attempted
clear call. -/
theorem start_clear_error_state (s : StreamState) (lf : String)
    (hr : s.is_running = false) (hh : s.handler = none)
    (ho : s.observer = none) (ht : s.thread = none) :
    (start s lf true false).1 = Except.error StreamError.transmissionError ∧
    (start s lf true false).2.1.is_running = false ∧
    (start s lf true false).2.1.handler = none ∧
    (start s lf true false).2.1.observer = none ∧
    (start s lf true false).2.1.thread = none ∧
    (start s lf true false).2.2 = [NetEvent.clearCall] := by
  simp [start, clear_buffer, hr, hh, ho, ht]

/-- Witness for C10 at the concrete never-started state. -/
theorem start_clear_error_state_witness :
    (neverStarted.is_running = false ∧ neverStarted.handler = none ∧
      neverStarted.observer = none ∧ neverStarted.thread = none) ∧
    (start neverStarted ".log" true false).1
        = Except.error StreamError.transmissionError ∧
    (start neverStarted ".log" true false).2.1.is_running = false ∧
    (start neverStarted ".log" true false).2.1.handler = none ∧
    (start neverStarted ".log" true false).2.1.observer = none ∧
    (start neverStarted ".log" true false).2.1.thread = none ∧
    (start neverStarted ".log" true false).2.2 = [NetEvent.clearCall] :=
  ⟨⟨rfl, rfl, rfl, rfl⟩,
    start_clear_error_state neverStarted ".log" rfl rfl rfl rfl⟩

end LogStreamSpec
